import Mathlib

set_option maxRecDepth 40000

/-!
# Verification of the gateway status-changer server

Shallow embedding of the gateway session engine of `src/server.js`
(class `DiscordConnection`, the `activeConnections` registry and the
HTTP endpoints), with theorems settling the specification claims.

Side effects (socket sends, timer starts/clears, client notifications,
reconnect scheduling) are modelled as explicit effect traces returned by
each step function.
-/

/-- Activity descriptor as supplied by the client (`req.body.activity`).
JS string truthiness is modelled by taking `""` for an absent/empty
field where the code tests truthiness (`name`, `imageUrl`, `imageText`);
`details` and `state` are passed through untested, so an absent value is
`none`. -/
structure Activity where
  name : String
  type : String
  details : Option String
  state : Option String
  imageUrl : String
  imageText : String
deriving Repr, DecidableEq

/-- The `assets` object of a composed activity
(src/server.js lines 164-176). -/
structure Assets where
  large_image : Option String
  large_text : Option String
deriving Repr, DecidableEq

/-- One entry of the `activities` array of a presence frame
(src/server.js lines 159-165). `type` is the result of `parseInt`,
`none` standing for `NaN`. -/
structure ActivityOut where
  name : String
  type : Option Int
  details : Option String
  state : Option String
  assets : Assets
deriving Repr, DecidableEq

/-- The `d` object of a presence-update frame
(src/server.js lines 181-186). -/
structure PresenceD where
  since : Nat
  activities : List ActivityOut
  status : String
  afk : Bool
deriving Repr, DecidableEq

/-- A presence-update frame `{op: 3, d: {...}}`
(src/server.js lines 179-187). -/
structure PresenceFrame where
  op : Nat
  d : PresenceD
deriving Repr, DecidableEq

/-- JavaScript `parseInt` restricted to base 10: skip leading
whitespace, optional sign, then the longest run of leading digits;
no digits gives `NaN`, modelled as `none`. -/
def parseIntJs (s : String) : Option Int :=
  let cs := s.toList.dropWhile fun ch => ch = ' ' ∨ ch = '\t' ∨ ch = '\n' ∨ ch = '\r'
  let signed : Bool × List Char :=
    match cs with
    | '-' :: rest => (true, rest)
    | '+' :: rest => (false, rest)
    | _ => (false, cs)
  let digits := signed.2.takeWhile Char.isDigit
  if digits.isEmpty then none
  else
    let n : Nat := digits.foldl (fun acc ch => acc * 10 + (ch.toNat - 48)) 0
    some (if signed.1 then -(n : Int) else (n : Int))

/-- JavaScript `String.prototype.split` with a one-character separator:
splitting the empty string gives `[""]`, and separators at the ends
produce empty segments, as in JS. -/
def jsSplitAux (sep : Char) : List Char → List Char → List String
  | [], cur => [String.mk cur.reverse]
  | ch :: rest, cur =>
      if ch = sep then String.mk cur.reverse :: jsSplitAux sep rest []
      else jsSplitAux sep rest (ch :: cur)

/-- `url.split(sep)` for a one-character separator. -/
def jsSplit (sep : Char) (s : String) : List String :=
  jsSplitAux sep s.toList []

/-- JavaScript `String.prototype.startsWith`. -/
def jsStartsWith (s pre : String) : Bool :=
  pre.toList.isPrefixOf s.toList

/-- `extractSpotifyImageId` (src/server.js lines 18-30): a CDN image URL
yields its trailing path segment (`url.split('/').pop()`); a
`spotify:`-prefixed reference yields its trailing `:`-segment; anything
else yields `null`. -/
def extractSpotifyImageId (url : String) : Option String :=
  if url = "" then none
  else if jsStartsWith url "https://i.scdn.co/image/" then
    some ((jsSplit '/' url).getLastD "")
  else if jsStartsWith url "spotify:" then
    some ((jsSplit ':' url).getLastD "")
  else none

/-- One composed activity entry, from the body of `updatePresence`
(src/server.js lines 156-177): `null` (no entry) when the descriptor's
name is falsy, otherwise the activity object, whose `assets` keys are
set only inside the `if (activityData.imageUrl)` block, `large_image`
only when the extracted image id is truthy and `large_text` only when
the alt text is truthy. -/
def composeActivity (a : Activity) : Option ActivityOut :=
  if a.name = "" then none
  else
    some
      { name := a.name
        type := parseIntJs a.type
        details := a.details
        state := a.state
        assets :=
          if a.imageUrl = "" then { large_image := none, large_text := none }
          else
            { large_image :=
                match extractSpotifyImageId a.imageUrl with
                | some imageId =>
                    if imageId = "" then none else some ("spotify:" ++ imageId)
                | none => none
              large_text := if a.imageText = "" then none else some a.imageText } }

/-- The full presence frame built by `updatePresence`
(src/server.js lines 179-187): `activities` holds the composed activity
when one was produced (`activity ? [activity] : []`), and an absent
descriptor composes to the empty list. -/
def composePresence (oa : Option Activity) : PresenceFrame :=
  { op := 3
    d :=
      { since := 0
        activities := (oa.bind composeActivity).toList
        status := "online"
        afk := false } }

/-- WebSocket `readyState` values. `opened` is the `OPEN` state. -/
inductive WsState where
  | connecting
  | opened
  | closing
  | closed
deriving Repr, DecidableEq

/-- Outbound gateway frames sent by the session
(heartbeat op 1, identify op 2, presence update op 3). -/
inductive Frame where
  | heartbeat (seq : Option Nat)
  | identify (token : String)
  | presence (f : PresenceFrame)
deriving Repr, DecidableEq

/-- Events published to the client notification channel via
`notifyClient` (src/server.js). -/
inductive ClientEvent where
  | discordReady
  | discordDisconnected
  | statusUpdated (activity : Option Activity)
  | sessionEnded
deriving Repr, DecidableEq

/-- Observable side effects of a step of the engine. -/
inductive Effect where
  | openSocket
  | closeSocket
  | send (f : Frame)
  | notify (sessionId : String) (ev : ClientEvent)
  | startHeartbeatTimer (intervalMs : Nat)
  | clearHeartbeatTimer
  | startKeepAliveTimer
  | clearKeepAliveTimer
  | scheduleReconnect (delayMs : Nat)
  | registryDelete (sessionId : String)
deriving Repr, DecidableEq

/-- The mutable state of one `DiscordConnection`
(src/server.js lines 33-43). Timer handles are modelled by whether the
timer is live. -/
structure DiscordConnection where
  token : String
  sessionId : String
  ws : Option WsState
  heartbeatTask : Bool
  lastSequence : Option Nat
  heartbeatAcked : Bool
  shouldReconnect : Bool
  currentActivity : Option Activity
  keepAliveTask : Bool
deriving Repr, DecidableEq

/-- The constructor of `DiscordConnection` (src/server.js lines 33-43). -/
def DiscordConnection.init (token sessionId : String) : DiscordConnection :=
  { token := token
    sessionId := sessionId
    ws := none
    heartbeatTask := false
    lastSequence := none
    heartbeatAcked := true
    shouldReconnect := true
    currentActivity := none
    keepAliveTask := false }

/-- An inbound gateway payload `{op, d, s, t}`; of `d` only
`heartbeat_interval` (used by op 10) is modelled. -/
structure Payload where
  op : Nat
  hbInterval : Nat
  s : Option Nat
  t : Option String
deriving Repr, DecidableEq

/-- Events driving one connection: the start of `connect()`, the socket
`open`/`message`/`close`/`error` callbacks, and a heartbeat-interval
tick. -/
inductive GwEvent where
  | connectStart
  | socketOpened
  | msg (p : Payload)
  | tick
  | socketClosed (code : Nat)
  | socketError (message : String)
deriving Repr, DecidableEq

/-- `this.ws.close()`: initiates the close handshake when the socket is
connecting or open, and is a no-op on a closing/closed socket (per the
WebSocket API). -/
def wsCloseCall (c : DiscordConnection) : DiscordConnection × List Effect :=
  match c.ws with
  | some WsState.opened => ({ c with ws := some WsState.closing }, [Effect.closeSocket])
  | some WsState.connecting => ({ c with ws := some WsState.closing }, [Effect.closeSocket])
  | _ => (c, [])

/-- `cleanup()` (src/server.js lines 232-241): clears each timer only
if it is live. -/
def DiscordConnection.cleanup (c : DiscordConnection) : DiscordConnection × List Effect :=
  ({ c with heartbeatTask := false, keepAliveTask := false },
    (if c.heartbeatTask then [Effect.clearHeartbeatTimer] else []) ++
      (if c.keepAliveTask then [Effect.clearKeepAliveTimer] else []))

/-- `updatePresence(activityData)` (src/server.js lines 148-197): store
the descriptor, return early when the socket is absent or not open,
otherwise send one presence frame and notify the client. -/
def DiscordConnection.updatePresence (c : DiscordConnection) (activityData : Activity) :
    DiscordConnection × List Effect :=
  if c.ws = some WsState.opened then
    ({ c with currentActivity := some activityData },
      [Effect.send (Frame.presence (composePresence (some activityData))),
        Effect.notify c.sessionId (ClientEvent.statusUpdated (some activityData))])
  else ({ c with currentActivity := some activityData }, [])

/-- `startKeepAlive()` (src/server.js lines 199-230): clears a prior
keep-alive timer if one is live, then starts a fresh one. -/
def DiscordConnection.startKeepAlive (c : DiscordConnection) :
    DiscordConnection × List Effect :=
  ({ c with keepAliveTask := true },
    (if c.keepAliveTask then [Effect.clearKeepAliveTimer] else []) ++
      [Effect.startKeepAliveTimer])

/-- JS truthiness of the `s` field: `if (s)` is false for `null`,
`undefined` and `0`. -/
def sTruthy : Option Nat → Bool
  | none => false
  | some n => n != 0

/-- The `switch (op)` of `handleMessage` (src/server.js lines 84-145),
applied after the sequence update. Op 10 marks the heartbeat acked,
starts the heartbeat timer and sends identify; op 11 marks the
heartbeat acked; op 0 with event `READY` notifies the client, starts the
keep-alive, and (the connect resolver being present) re-applies a stored
activity; op 7 calls `this.ws.close()`. -/
def DiscordConnection.handleOp (c0 : DiscordConnection) (p : Payload) :
    DiscordConnection × List Effect :=
  if p.op = 10 then
    ({ c0 with heartbeatAcked := true, heartbeatTask := true },
      [Effect.startHeartbeatTimer p.hbInterval, Effect.send (Frame.identify c0.token)])
  else if p.op = 11 then
    ({ c0 with heartbeatAcked := true }, [])
  else if p.op = 0 then
    if p.t = some "READY" then
      match ((c0.startKeepAlive).1).currentActivity with
      | some a =>
          ((((c0.startKeepAlive).1).updatePresence a).1,
            Effect.notify c0.sessionId ClientEvent.discordReady ::
              ((c0.startKeepAlive).2 ++ (((c0.startKeepAlive).1).updatePresence a).2))
      | none =>
          ((c0.startKeepAlive).1,
            Effect.notify c0.sessionId ClientEvent.discordReady :: (c0.startKeepAlive).2)
    else (c0, [])
  else if p.op = 7 then
    wsCloseCall c0
  else (c0, [])

/-- `handleMessage(payload)` (src/server.js lines 79-146): a truthy `s`
updates `lastSequence` (line 82), then the op switch runs. -/
def DiscordConnection.handleMessage (c : DiscordConnection) (p : Payload) :
    DiscordConnection × List Effect :=
  DiscordConnection.handleOp (if sTruthy p.s then { c with lastSequence := p.s } else c) p

/-- The body of the heartbeat `setInterval` callback
(src/server.js lines 89-100): with no ack pending, close the socket and
send nothing this tick; otherwise, when the socket is open, clear the
ack flag and send one heartbeat carrying `lastSequence`. -/
def DiscordConnection.heartbeatTick (c : DiscordConnection) :
    DiscordConnection × List Effect :=
  if c.heartbeatAcked = false then wsCloseCall c
  else if c.ws = some WsState.opened then
    ({ c with heartbeatAcked := false }, [Effect.send (Frame.heartbeat c.lastSequence)])
  else (c, [])

/-- The socket `close` handler (src/server.js lines 58-70): run
`cleanup`, notify the client of the disconnection, and schedule a
reconnect after 5000 ms when `shouldReconnect` holds. -/
def DiscordConnection.onSocketClosed (c : DiscordConnection) :
    DiscordConnection × List Effect :=
  let c0 := { c with ws := some WsState.closed }
  let c1 := (c0.cleanup).1
  let cleanEffs := (c0.cleanup).2
  (c1,
    cleanEffs ++ [Effect.notify c1.sessionId ClientEvent.discordDisconnected] ++
      (if c1.shouldReconnect then [Effect.scheduleReconnect 5000] else []))

/-- `disconnect()` (src/server.js lines 243-256): disable reconnect,
drop the stored activity, close the socket if present, run `cleanup`,
then publish a `session_ended` notification. -/
def DiscordConnection.disconnect (c : DiscordConnection) :
    DiscordConnection × List Effect :=
  let c1 := { c with shouldReconnect := false, currentActivity := none }
  let c2 := (wsCloseCall c1).1
  let closeEffs := (wsCloseCall c1).2
  let c3 := (c2.cleanup).1
  let cleanEffs := (c2.cleanup).2
  (c3, closeEffs ++ cleanEffs ++ [Effect.notify c3.sessionId ClientEvent.sessionEnded])

/-- Transition of one connection on one event. A tick only occurs while
the heartbeat timer is live; the `error` handler only rejects the
connect promise (modelled in `runUntilSettled`). -/
def gwStep (c : DiscordConnection) : GwEvent → DiscordConnection × List Effect
  | GwEvent.connectStart => ({ c with ws := some WsState.connecting }, [Effect.openSocket])
  | GwEvent.socketOpened => ({ c with ws := some WsState.opened }, [])
  | GwEvent.msg p => c.handleMessage p
  | GwEvent.tick => if c.heartbeatTask then c.heartbeatTick else (c, [])
  | GwEvent.socketClosed _ => c.onSocketClosed
  | GwEvent.socketError _ => (c, [])

/-- Fold a connection through a trace of events, discarding effects. -/
def runTrace (c : DiscordConnection) (evs : List GwEvent) : DiscordConnection :=
  evs.foldl (fun c e => (gwStep c e).1) c

/-- The `activeConnections` map (src/server.js line 12), as an
association list with unique keys. -/
abbrev Registry := List (String × DiscordConnection)

/-- `Map.get`: the connection stored under a session id, if any. -/
def regLookup : Registry → String → Option DiscordConnection
  | [], _ => none
  | (k, c) :: rest, id => if k = id then some c else regLookup rest id

/-- `Map.set`: replace the value at an existing key, else append. -/
def regInsert : Registry → String → DiscordConnection → Registry
  | [], id, c => [(id, c)]
  | (k, v) :: rest, id, c =>
      if k = id then (k, c) :: rest else (k, v) :: regInsert rest id c

/-- `Map.delete`: remove the entry at a key. -/
def regErase : Registry → String → Registry
  | [], _ => []
  | (k, v) :: rest, id =>
      if k = id then regErase rest id else (k, v) :: regErase rest id

/-- Responses of the HTTP endpoints. `statusJson` carries the status
body; its `currentActivity` is `none` when the field is absent from the
JSON and `some x` when present with value `x` (possibly `null`).
`pending` models a request whose promise never settles. -/
inductive ApiResponse where
  | okMsg (code : Nat)
  | errMsg (code : Nat) (message : String)
  | statusJson (code : Nat) (connected : Bool) (currentActivity : Option (Option Activity))
  | pending
deriving Repr, DecidableEq

/-- The HTTP status code of a response. -/
def respCode : ApiResponse → Nat
  | ApiResponse.okMsg k => k
  | ApiResponse.errMsg k _ => k
  | ApiResponse.statusJson k _ _ => k
  | ApiResponse.pending => 0

/-- The connection state right after `connect()` has constructed the
socket (src/server.js line 47). -/
def connectInit (token sessionId : String) : DiscordConnection :=
  (gwStep (DiscordConnection.init token sessionId) GwEvent.connectStart).1

/-- Whether an event is the `READY` dispatch that resolves the connect
promise (src/server.js lines 121-138). -/
def isReadyEvent : GwEvent → Bool
  | GwEvent.msg p => p.op == 0 && p.t == some "READY"
  | _ => false

/-- The message carried by a socket `error` event, if the event is one. -/
def errorOf : GwEvent → Option String
  | GwEvent.socketError m => some m
  | _ => none

/-- Settlement of the promise returned by `connect()`: events are
processed in order; the first socket error rejects, the first `READY`
dispatch resolves with the connection state after its handler ran, and
an exhausted trace leaves the promise pending. -/
def runUntilSettled (c : DiscordConnection) :
    List GwEvent → Option (Except String DiscordConnection)
  | [] => none
  | e :: rest =>
      match errorOf e with
      | some m => some (Except.error m)
      | none =>
          if isReadyEvent e then some (Except.ok (gwStep c e).1)
          else runUntilSettled (gwStep c e).1 rest

/-- `POST /api/connect` (src/server.js lines 325-351), given the trace
of gateway events seen while awaiting `connect()`: store the session
and answer 200 when the promise resolves, answer 500 without storing
when it rejects. -/
def apiConnect (st : Registry) (sessionId token : String) (evs : List GwEvent) :
    Registry × ApiResponse :=
  match runUntilSettled (connectInit token sessionId) evs with
  | some (Except.ok c) => (regInsert st sessionId c, ApiResponse.okMsg 200)
  | some (Except.error m) => (st, ApiResponse.errMsg 500 m)
  | none => (st, ApiResponse.pending)

/-- `POST /api/update-status` (src/server.js lines 353-378). -/
def apiUpdateStatus (st : Registry) (sessionId : String) (a : Activity) :
    Registry × ApiResponse × List Effect :=
  match regLookup st sessionId with
  | none => (st, ApiResponse.errMsg 404 "Session not found", [])
  | some c =>
      (regInsert st sessionId (c.updatePresence a).1, ApiResponse.okMsg 200,
        (c.updatePresence a).2)

/-- `POST /api/disconnect` (src/server.js lines 380-400): 404 on an
unknown id; otherwise `connection.disconnect()` runs first and the
registry entry is deleted afterwards. -/
def apiDisconnect (st : Registry) (sessionId : String) :
    Registry × ApiResponse × List Effect :=
  match regLookup st sessionId with
  | none => (st, ApiResponse.errMsg 404 "Session not found", [])
  | some c =>
      (regErase st sessionId, ApiResponse.okMsg 200,
        (c.disconnect).2 ++ [Effect.registryDelete sessionId])

/-- `GET /api/status/:sessionId` (src/server.js lines 402-415): an
unknown id answers 200 with `{connected: false}` and no
`currentActivity` field; a known id answers 200 with the socket's
open state and the stored activity. -/
def apiStatus (st : Registry) (sessionId : String) : ApiResponse :=
  match regLookup st sessionId with
  | none => ApiResponse.statusJson 200 false none
  | some c =>
      ApiResponse.statusJson 200 (decide (c.ws = some WsState.opened))
        (some c.currentActivity)

/-- A gateway event delivered to the connection stored under `id`; the
callbacks mutate the stored object in place, modelled by writing the
stepped connection back at the same key. -/
def serverGw (st : Registry) (id : String) (e : GwEvent) : Registry × List Effect :=
  match regLookup st id with
  | none => (st, [])
  | some c => (regInsert st id (gwStep c e).1, (gwStep c e).2)

/-- All events that can touch the registry. -/
inductive ServerEvent where
  | gw (id : String) (e : GwEvent)
  | apiConnect (sessionId token : String) (evs : List GwEvent)
  | apiUpdateStatus (sessionId : String) (a : Activity)
  | apiDisconnect (sessionId : String)
  | apiStatus (sessionId : String)
  | apiSessions
deriving Repr, DecidableEq

/-- The registry after one server event; the status and sessions
endpoints are read-only. -/
def serverStep (st : Registry) : ServerEvent → Registry
  | ServerEvent.gw id e => (serverGw st id e).1
  | ServerEvent.apiConnect sid tok evs => (apiConnect st sid tok evs).1
  | ServerEvent.apiUpdateStatus sid a => (apiUpdateStatus st sid a).1
  | ServerEvent.apiDisconnect sid => (apiDisconnect st sid).1
  | ServerEvent.apiStatus _ => st
  | ServerEvent.apiSessions => st

/-- The frames carried by the send effects of a trace. -/
def sentFrames (effs : List Effect) : List Frame :=
  effs.filterMap fun e =>
    match e with
    | Effect.send f => some f
    | _ => none

/-- The reconnect-scheduling effects of a trace. -/
def reconnectEffects (effs : List Effect) : List Effect :=
  effs.filter fun e =>
    match e with
    | Effect.scheduleReconnect _ => true
    | _ => false

/-- Order on optional sequence numbers: `none` precedes everything. -/
def seqLe : Option Nat → Option Nat → Bool
  | none, _ => true
  | some _, none => false
  | some m, some n => m ≤ n

/-! ## Basic preservation lemmas -/

lemma updatePresence_fst (c : DiscordConnection) (a : Activity) :
    (c.updatePresence a).1 = { c with currentActivity := some a } := by
  unfold DiscordConnection.updatePresence
  split <;> rfl

lemma startKeepAlive_fst (c : DiscordConnection) :
    (c.startKeepAlive).1 = { c with keepAliveTask := true } := rfl

lemma wsCloseCall_eq (c : DiscordConnection) :
    wsCloseCall c =
      if c.ws = some WsState.opened ∨ c.ws = some WsState.connecting then
        ({ c with ws := some WsState.closing }, [Effect.closeSocket])
      else (c, []) := by
  rcases hws : c.ws with _ | w
  · simp [wsCloseCall, hws]
  · cases w <;> simp [wsCloseCall, hws]

lemma handleOp_lastSequence (c0 : DiscordConnection) (p : Payload) :
    ((c0.handleOp p).1).lastSequence = c0.lastSequence := by
  unfold DiscordConnection.handleOp
  repeat' split
  all_goals simp [updatePresence_fst, startKeepAlive_fst, wsCloseCall_eq]
  all_goals split <;> rfl

lemma handleOp_shouldReconnect (c0 : DiscordConnection) (p : Payload) :
    ((c0.handleOp p).1).shouldReconnect = c0.shouldReconnect := by
  unfold DiscordConnection.handleOp
  repeat' split
  all_goals simp [updatePresence_fst, startKeepAlive_fst, wsCloseCall_eq]
  all_goals split <;> rfl

lemma handleMessage_lastSequence (c : DiscordConnection) (p : Payload) :
    ((c.handleMessage p).1).lastSequence =
      if sTruthy p.s then p.s else c.lastSequence := by
  unfold DiscordConnection.handleMessage
  by_cases h : sTruthy p.s <;> simp [h, handleOp_lastSequence]

lemma handleMessage_shouldReconnect (c : DiscordConnection) (p : Payload) :
    ((c.handleMessage p).1).shouldReconnect = c.shouldReconnect := by
  unfold DiscordConnection.handleMessage
  by_cases h : sTruthy p.s <;> simp [h, handleOp_shouldReconnect]

lemma gwStep_shouldReconnect (c : DiscordConnection) (e : GwEvent) :
    ((gwStep c e).1).shouldReconnect = c.shouldReconnect := by
  cases e with
  | connectStart => rfl
  | socketOpened => rfl
  | msg p => exact handleMessage_shouldReconnect c p
  | tick =>
      show ((if c.heartbeatTask then c.heartbeatTick else (c, [])).1).shouldReconnect = _
      split
      · unfold DiscordConnection.heartbeatTick
        repeat' split
        all_goals simp [wsCloseCall_eq]
        all_goals split <;> rfl
      · rfl
  | socketClosed k => rfl
  | socketError m => rfl

/-! ## Claim C5 — presence composition -/

/-- The presence frame with an empty activity list: `op` 3, `since` 0,
status `online`, `afk` false (src/server.js lines 179-187). -/
def emptyPresenceFrame : PresenceFrame :=
  { op := 3, d := { since := 0, activities := [], status := "online", afk := false } }

/-- Claim C5: presence composition is a deterministic, side-effect-free
function of the descriptor — equal descriptors compose to identical
frames, and an absent descriptor or one with an empty name composes to
a frame with an empty activities list, with op 3, since 0, status
online and afk false. -/
theorem compose_deterministic_and_empty (d1 d2 : Option Activity) (a : Activity) :
    (d1 = d2 → composePresence d1 = composePresence d2) ∧
    composePresence none = emptyPresenceFrame ∧
    (a.name = "" → composePresence (some a) = emptyPresenceFrame) := by
  refine ⟨fun h => by rw [h], rfl, fun h => ?_⟩
  simp [composePresence, composeActivity, h, emptyPresenceFrame]

/-- Sample descriptor with a non-empty name. -/
def actSample : Activity :=
  { name := "Song A", type := "2", details := none, state := some "by Artist",
    imageUrl := "", imageText := "" }

/-- Sample descriptor with every field empty (a `{}` body). -/
def actBlank : Activity :=
  { name := "", type := "", details := none, state := none,
    imageUrl := "", imageText := "" }

theorem compose_deterministic_and_empty_witness :
    composePresence (some actBlank) = emptyPresenceFrame ∧
    composePresence (some actSample) = composePresence (some actSample) :=
  ⟨(compose_deterministic_and_empty (some actBlank) (some actBlank) actBlank).2.2 rfl,
    (compose_deterministic_and_empty (some actSample) (some actSample) actSample).1 rfl⟩

/-! ## Claim C6 — artwork normalization -/

/-- Claim C6: artwork normalization maps a direct CDN image URL (the
spec's anonymized `https://cdn.example/image/abc123` is the code's
`https://i.scdn.co/image/abc123`) to the id `abc123`, an
already-prefixed reference (the spec's `proto:abc123` is the code's
`spotify:abc123`) to the id `abc123`, and any other string to no
artwork fields; the composed activity's assets are populated only when
an artwork reference was supplied, the large-image key from the
normalized id and the large-text key from the alt text when present. -/
theorem artwork_normalization (url : String) (a : Activity) (o : ActivityOut)
    (imageId : String) :
    extractSpotifyImageId "https://i.scdn.co/image/abc123" = some "abc123" ∧
    extractSpotifyImageId "spotify:abc123" = some "abc123" ∧
    (jsStartsWith url "https://i.scdn.co/image/" = false →
      jsStartsWith url "spotify:" = false → extractSpotifyImageId url = none) ∧
    (a.imageUrl = "" → composeActivity a = some o →
      o.assets = { large_image := none, large_text := none }) ∧
    (composeActivity a = some o → extractSpotifyImageId a.imageUrl = some imageId →
      imageId ≠ "" → o.assets.large_image = some ("spotify:" ++ imageId)) ∧
    (composeActivity a = some o → a.imageUrl ≠ "" → a.imageText ≠ "" →
      o.assets.large_text = some a.imageText) := by
  refine ⟨by decide, by decide, ?_, ?_, ?_, ?_⟩
  · intro h1 h2
    unfold extractSpotifyImageId
    rw [h1, h2]
    simp
  · intro hurl hco
    by_cases hn : a.name = ""
    · simp [composeActivity, hn] at hco
    · simp [composeActivity, hn, hurl] at hco
      subst hco
      rfl
  · intro hco hex hne
    have hurl : a.imageUrl ≠ "" := by
      intro h
      rw [h] at hex
      simp [extractSpotifyImageId] at hex
    by_cases hn : a.name = ""
    · simp [composeActivity, hn] at hco
    · simp [composeActivity, hn, hurl] at hco
      subst hco
      simp [hex, hne]
  · intro hco hurl htext
    by_cases hn : a.name = ""
    · simp [composeActivity, hn] at hco
    · simp [composeActivity, hn, hurl] at hco
      subst hco
      simp [htext]

/-- Sample descriptor carrying an artwork reference. -/
def actArt : Activity :=
  { name := "Song", type := "2", details := none, state := none,
    imageUrl := "spotify:abc123", imageText := "Cover" }

/-- The activity entry composed from `actArt`. -/
def actArtOut : ActivityOut :=
  { name := "Song", type := some 2, details := none, state := none,
    assets := { large_image := some "spotify:abc123", large_text := some "Cover" } }

theorem artwork_normalization_witness :
    extractSpotifyImageId "foo" = none ∧
    actArtOut.assets.large_image = some ("spotify:" ++ "abc123") ∧
    actArtOut.assets.large_text = some "Cover" :=
  ⟨(artwork_normalization "foo" actArt actArtOut "abc123").2.2.1 (by decide) (by decide),
    (artwork_normalization "foo" actArt actArtOut "abc123").2.2.2.2.1 (by decide)
      (by decide) (by decide),
    (artwork_normalization "foo" actArt actArtOut "abc123").2.2.2.2.2 (by decide)
      (by decide) (by decide)⟩

/-! ## Registry lemmas -/

lemma regLookup_insert_self (r : Registry) (id : String) (c : DiscordConnection) :
    regLookup (regInsert r id c) id = some c := by
  induction r with
  | nil => simp [regInsert, regLookup]
  | cons hd tl ih =>
      obtain ⟨k, v⟩ := hd
      by_cases h : k = id
      · simp [regInsert, regLookup, h]
      · simp [regInsert, regLookup, h, ih]

lemma regLookup_insert_ne (r : Registry) (id : String) (c : DiscordConnection)
    (j : String) (h : j ≠ id) : regLookup (regInsert r id c) j = regLookup r j := by
  have hij : id ≠ j := Ne.symm h
  induction r with
  | nil => simp [regInsert, regLookup, hij]
  | cons hd tl ih =>
      obtain ⟨k, v⟩ := hd
      by_cases hk : k = id
      · subst hk
        simp [regInsert, regLookup, hij]
      · simp [regInsert, regLookup, hk, ih]

lemma regLookup_erase_self (r : Registry) (id : String) :
    regLookup (regErase r id) id = none := by
  induction r with
  | nil => simp [regErase, regLookup]
  | cons hd tl ih =>
      obtain ⟨k, v⟩ := hd
      by_cases h : k = id
      · simp [regErase, h, ih]
      · simp [regErase, regLookup, h, ih]

lemma regLookup_erase_ne (r : Registry) (id j : String) (h : j ≠ id) :
    regLookup (regErase r id) j = regLookup r j := by
  have hij : id ≠ j := Ne.symm h
  induction r with
  | nil => simp [regErase, regLookup]
  | cons hd tl ih =>
      obtain ⟨k, v⟩ := hd
      by_cases hk : k = id
      · subst hk
        simp [regErase, regLookup, hij, ih]
      · simp [regErase, regLookup, hk, ih]

/-! ## Claim C10 — status endpoint on an unknown session id -/

/-- Claim C10: get-status on a session id absent from the registry does
not report a not-found error; it answers 200 with `connected: false`
and no `currentActivity` field, so the status code alone cannot
distinguish an absent session from a present one that lost its
socket. -/
theorem status_unknown_id (st : Registry) (id : String)
    (h : regLookup st id = none) :
    apiStatus st id = ApiResponse.statusJson 200 false none ∧
    respCode (apiStatus st id) = 200 ∧
    (∀ st2 id2 c, regLookup st2 id2 = some c →
      respCode (apiStatus st2 id2) = respCode (apiStatus st id)) := by
  have h1 : apiStatus st id = ApiResponse.statusJson 200 false none := by
    unfold apiStatus
    rw [h]
  refine ⟨h1, by rw [h1]; rfl, ?_⟩
  intro st2 id2 c hc
  unfold apiStatus
  rw [h, hc]
  rfl

/-- A session that completed `connect`, `open` and the `hello`
handshake: open socket, live heartbeat timer, ack flag still set. -/
def connReady : DiscordConnection :=
  runTrace (DiscordConnection.init "tok" "sid")
    [GwEvent.connectStart, GwEvent.socketOpened,
      GwEvent.msg { op := 10, hbInterval := 30000, s := none, t := none }]

theorem status_unknown_id_witness :
    apiStatus [("sid", connReady)] "other" = ApiResponse.statusJson 200 false none :=
  (status_unknown_id [("sid", connReady)] "other" (by decide)).1

/-! ## Claim C9 — sequence tracking -/

/-- Claim C9 counterexample: the claim says every inbound frame
carrying a sequence number stores that number and that the stored
sequence is non-decreasing, but `if (s)` is a JS truthiness test, so a
frame with `s = 0` is ignored (the store stays `null` rather than
becoming `0`), and a frame carrying a smaller sequence number than the
stored one overwrites it downwards (`5` then `3` leaves `3`). -/
theorem sequence_tracking_counterexample :
    ((DiscordConnection.init "tok" "sid").handleMessage
        { op := 11, hbInterval := 0, s := some 0, t := none }).1.lastSequence = none ∧
    ((DiscordConnection.init "tok" "sid").handleMessage
        { op := 0, hbInterval := 0, s := some 5, t := none }).1.lastSequence = some 5 ∧
    ((((DiscordConnection.init "tok" "sid").handleMessage
          { op := 0, hbInterval := 0, s := some 5, t := none }).1).handleMessage
        { op := 0, hbInterval := 0, s := some 3, t := none }).1.lastSequence = some 3 ∧
    seqLe (some 5) (some 3) = false :=
  ⟨rfl, rfl, rfl, rfl⟩

/-- Claim C9 (amended): every inbound frame carrying a truthy (nonzero)
sequence number updates the stored last-seen sequence to that number
and a falsy one leaves it unchanged; provided inbound sequence numbers
are at least the stored one (the gateway wire contract), the stored
sequence is non-decreasing; and each heartbeat frame sent carries the
current stored sequence. -/
theorem sequence_tracking (c : DiscordConnection) (p : Payload) :
    (sTruthy p.s = true → ((c.handleMessage p).1).lastSequence = p.s) ∧
    (sTruthy p.s = false → ((c.handleMessage p).1).lastSequence = c.lastSequence) ∧
    ((∀ n, p.s = some n → seqLe c.lastSequence (some n) = true) →
      seqLe c.lastSequence (((c.handleMessage p).1).lastSequence) = true) ∧
    (c.heartbeatAcked = true → c.ws = some WsState.opened →
      (c.heartbeatTick).2 = [Effect.send (Frame.heartbeat c.lastSequence)]) := by
  have hseq := handleMessage_lastSequence c p
  refine ⟨?_, ?_, ?_, ?_⟩
  · intro h
    rw [hseq, if_pos h]
  · intro h
    rw [hseq, if_neg (by simp [h])]
  · intro hwire
    by_cases h : sTruthy p.s
    · rw [hseq, if_pos h]
      rcases hs : p.s with _ | n
      · rw [hs] at h
        simp [sTruthy] at h
      · exact hwire n hs
    · rw [hseq, if_neg h]
      rcases c.lastSequence with _ | m
      · rfl
      · simp [seqLe]
  · intro hack hws
    unfold DiscordConnection.heartbeatTick
    rw [hack]
    simp [hws]

theorem sequence_tracking_witness :
    ((connReady.handleMessage { op := 0, hbInterval := 0, s := some 7, t := none }).1).lastSequence = some 7 ∧
    (connReady.heartbeatTick).2 = [Effect.send (Frame.heartbeat connReady.lastSequence)] :=
  ⟨(sequence_tracking connReady { op := 0, hbInterval := 0, s := some 7, t := none }).1 rfl,
    (sequence_tracking connReady { op := 0, hbInterval := 0, s := some 7, t := none }).2.2.2 rfl rfl⟩

/-! ## Claim C2 — applyActivity (updatePresence) -/

lemma handleOp_ready_sends (c0 : DiscordConnection) (p : Payload) (a : Activity)
    (hws : c0.ws = some WsState.opened) (hact : c0.currentActivity = some a)
    (hop : p.op = 0) (ht : p.t = some "READY") :
    sentFrames ((c0.handleOp p).2) = [Frame.presence (composePresence (some a))] := by
  unfold DiscordConnection.handleOp
  rw [hop, ht]
  cases hka : c0.keepAliveTask <;>
    simp [startKeepAlive_fst, hact, DiscordConnection.updatePresence, hws, hka,
      DiscordConnection.startKeepAlive, sentFrames]

/-- Claim C2: `updatePresence` stores the descriptor as the current
activity unconditionally; when the socket is absent or not open, no
frame is sent, and the stored descriptor is sent automatically by the
next ready event's handler; when the socket is open, exactly one
presence frame is built and sent (followed by the status-updated
notification). -/
theorem update_presence_contract (c : DiscordConnection) (a : Activity) (p : Payload) :
    ((c.updatePresence a).1).currentActivity = some a ∧
    (c.ws ≠ some WsState.opened → (c.updatePresence a).2 = []) ∧
    (c.ws = some WsState.opened →
      (c.updatePresence a).2 =
        [Effect.send (Frame.presence (composePresence (some a))),
          Effect.notify c.sessionId (ClientEvent.statusUpdated (some a))]) ∧
    (c.ws = some WsState.opened → c.currentActivity = some a → p.op = 0 →
      p.t = some "READY" →
      sentFrames ((c.handleMessage p).2) = [Frame.presence (composePresence (some a))]) := by
  refine ⟨?_, ?_, ?_, ?_⟩
  · rw [updatePresence_fst]
  · intro h
    unfold DiscordConnection.updatePresence
    rw [if_neg h]
  · intro h
    unfold DiscordConnection.updatePresence
    rw [if_pos h]
  · intro hws hact hop ht
    unfold DiscordConnection.handleMessage
    cases hs : sTruthy p.s
    · simp only [hs, Bool.false_eq_true, if_false]
      exact handleOp_ready_sends c p a hws hact hop ht
    · simp only [hs, if_true]
      exact handleOp_ready_sends _ p a hws hact hop ht

/-- `connReady` with `actSample` stored while the socket was open. -/
def connWithAct : DiscordConnection := (connReady.updatePresence actSample).1

theorem update_presence_contract_witness :
    (connReady.updatePresence actSample).2 =
      [Effect.send (Frame.presence (composePresence (some actSample))),
        Effect.notify "sid" (ClientEvent.statusUpdated (some actSample))] ∧
    sentFrames ((connWithAct.handleMessage
        { op := 0, hbInterval := 0, s := none, t := some "READY" }).2) =
      [Frame.presence (composePresence (some actSample))] :=
  ⟨(update_presence_contract connReady actSample
      { op := 0, hbInterval := 0, s := none, t := some "READY" }).2.2.1 rfl,
    (update_presence_contract connWithAct actSample
      { op := 0, hbInterval := 0, s := none, t := some "READY" }).2.2.2 rfl rfl rfl rfl⟩

/-! ## Claim C3 — close() idempotence -/

/-- Claim C3 counterexample: calling `disconnect` twice is not fully
idempotent in its observable effects — the second call publishes a
second `session_ended` notification (src/server.js lines 252-255 run
unconditionally on every call), here on a session whose first
disconnect produced the close, the timer clear and the first
notification. -/
theorem close_twice_double_notification :
    (connReady.disconnect).2 =
      [Effect.closeSocket, Effect.clearHeartbeatTimer,
        Effect.notify "sid" ClientEvent.sessionEnded] ∧
    (((connReady.disconnect).1).disconnect).2 =
      [Effect.notify "sid" ClientEvent.sessionEnded] :=
  ⟨rfl, rfl⟩

/-- Claim C3 (amended): a first `disconnect` disables reconnect, leaves
the socket non-open and releases both timers; a second `disconnect`
leaves the state unchanged and performs no second socket close and no
second timer clear, but it does publish one more `session_ended`
notification (its only effect). -/
theorem close_idempotent (c : DiscordConnection) :
    ((c.disconnect).1).shouldReconnect = false ∧
    ((c.disconnect).1).ws ≠ some WsState.opened ∧
    ((c.disconnect).1).heartbeatTask = false ∧
    ((c.disconnect).1).keepAliveTask = false ∧
    (((c.disconnect).1).disconnect).1 = (c.disconnect).1 ∧
    (((c.disconnect).1).disconnect).2 = [Effect.notify c.sessionId ClientEvent.sessionEnded] := by
  obtain ⟨tok, sid, ws, hbt, ls, ack, sr, act, ka⟩ := c
  rcases ws with _ | w
  · cases hbt <;> cases ka <;>
      exact ⟨rfl, by simp [DiscordConnection.disconnect, wsCloseCall,
        DiscordConnection.cleanup], rfl, rfl, rfl, rfl⟩
  · cases w <;> cases hbt <;> cases ka <;>
      exact ⟨rfl, by simp [DiscordConnection.disconnect, wsCloseCall,
        DiscordConnection.cleanup], rfl, rfl, rfl, rfl⟩

/-! ## Claim C1 — heartbeat tick -/

/-- `connReady` after the server requested a reconnect (op 7): the
close handshake is in progress, the heartbeat timer is still live (it
is only cleared by the close event), and the last heartbeat was
acked. -/
def connCloseRequested : DiscordConnection :=
  runTrace connReady [GwEvent.msg { op := 7, hbInterval := 0, s := none, t := none }]

/-- Claim C1 counterexample: on a tick of a running heartbeat monitor
whose previous heartbeat was acknowledged, the claim says the
ack-pending flag is set and one heartbeat frame is sent; but when the
socket is not open (here: op 7 put it into the close handshake while
the timer is still live), the tick sends nothing and leaves the flag
untouched (src/server.js line 96 guards the send on an open socket). -/
theorem heartbeat_tick_counterexample :
    connCloseRequested.heartbeatTask = true ∧
    connCloseRequested.shouldReconnect = true ∧
    connCloseRequested.heartbeatAcked = true ∧
    (gwStep connCloseRequested GwEvent.tick).2 = [] ∧
    ((gwStep connCloseRequested GwEvent.tick).1).heartbeatAcked = true :=
  ⟨rfl, rfl, rfl, rfl, rfl⟩

/-- Claim C1 (amended): on each tick of a running monitor with
reconnect enabled — if the previous heartbeat was not acknowledged, no
heartbeat frame is sent, the socket is force-closed when it was open,
and the tick together with the ensuing close event schedules exactly
one reconnect; if it was acknowledged and the socket is open, the
ack-pending flag is set and exactly one heartbeat frame is sent; if it
was acknowledged but the socket is not open, the tick sends nothing and
changes nothing. -/
theorem heartbeat_tick_contract (c : DiscordConnection) (k : Nat)
    (htask : c.heartbeatTask = true) (hrec : c.shouldReconnect = true) :
    (c.heartbeatAcked = false →
      sentFrames ((gwStep c GwEvent.tick).2) = [] ∧
      reconnectEffects ((gwStep c GwEvent.tick).2 ++
          (gwStep ((gwStep c GwEvent.tick).1) (GwEvent.socketClosed k)).2) =
        [Effect.scheduleReconnect 5000] ∧
      (c.ws = some WsState.opened → (gwStep c GwEvent.tick).2 = [Effect.closeSocket])) ∧
    (c.heartbeatAcked = true → c.ws = some WsState.opened →
      ((gwStep c GwEvent.tick).1).heartbeatAcked = false ∧
      (gwStep c GwEvent.tick).2 = [Effect.send (Frame.heartbeat c.lastSequence)]) ∧
    (c.heartbeatAcked = true → c.ws ≠ some WsState.opened →
      gwStep c GwEvent.tick = (c, [])) := by
  obtain ⟨tok, sid, ws, hbt, ls, ack, sr, act, ka⟩ := c
  cases hbt
  · simp at htask
  cases sr
  · simp at hrec
  refine ⟨?_, ?_, ?_⟩
  · intro hack
    cases ack
    · rcases ws with _ | w
      · exact ⟨rfl, by cases ka <;> rfl, fun h => by simp at h⟩
      · cases w <;> cases ka <;>
          exact ⟨rfl, rfl, fun h => by first | rfl | simp at h⟩
    · simp at hack
  · intro hack hws
    cases ack
    · simp at hack
    · rcases ws with _ | w
      · simp at hws
      · cases w
        · simp at hws
        · exact ⟨rfl, rfl⟩
        · simp at hws
        · simp at hws
  · intro hack hws
    cases ack
    · simp at hack
    · rcases ws with _ | w
      · rfl
      · cases w
        · rfl
        · exact absurd rfl hws
        · rfl
        · rfl

/-- `connReady` right after a tick sent a heartbeat: the ack is now
pending. -/
def connAwaitingAck : DiscordConnection := (gwStep connReady GwEvent.tick).1

theorem heartbeat_tick_contract_witness :
    (((gwStep connReady GwEvent.tick).1).heartbeatAcked = false ∧
      (gwStep connReady GwEvent.tick).2 =
        [Effect.send (Frame.heartbeat connReady.lastSequence)]) ∧
    (sentFrames ((gwStep connAwaitingAck GwEvent.tick).2) = [] ∧
      reconnectEffects ((gwStep connAwaitingAck GwEvent.tick).2 ++
          (gwStep ((gwStep connAwaitingAck GwEvent.tick).1) (GwEvent.socketClosed 1006)).2) =
        [Effect.scheduleReconnect 5000] ∧
      (connAwaitingAck.ws = some WsState.opened →
        (gwStep connAwaitingAck GwEvent.tick).2 = [Effect.closeSocket])) :=
  ⟨(heartbeat_tick_contract connReady 1006 rfl rfl).2.1 rfl rfl,
    (heartbeat_tick_contract connAwaitingAck 1006 rfl rfl).1 rfl⟩

/-! ## Claim C7 — disconnect endpoint -/

lemma disconnect_ws_not_open (c : DiscordConnection) :
    ((c.disconnect).1).ws ≠ some WsState.opened := by
  obtain ⟨tok, sid, ws, hbt, ls, ack, sr, act, ka⟩ := c
  rcases ws with _ | w
  · simp [DiscordConnection.disconnect, wsCloseCall, DiscordConnection.cleanup]
  · cases w <;>
      simp [DiscordConnection.disconnect, wsCloseCall, DiscordConnection.cleanup]

lemma disconnect_shouldReconnect (c : DiscordConnection) :
    ((c.disconnect).1).shouldReconnect = false := by
  obtain ⟨tok, sid, ws, hbt, ls, ack, sr, act, ka⟩ := c
  rcases ws with _ | w
  · rfl
  · cases w <;> rfl

/-- Claim C7: the disconnect endpoint on an id absent from the registry
reports not-found and changes nothing; on a present id it runs
`disconnect` on the held session — leaving its socket non-open and its
reconnect flag disabled — before the entry is deleted, so the deleted
entry never leaves an orphaned open socket. -/
theorem disconnect_endpoint_contract (st : Registry) (id : String) :
    (regLookup st id = none →
      apiDisconnect st id = (st, ApiResponse.errMsg 404 "Session not found", [])) ∧
    (∀ c, regLookup st id = some c →
      (apiDisconnect st id).1 = regErase st id ∧
      (apiDisconnect st id).2.1 = ApiResponse.okMsg 200 ∧
      (apiDisconnect st id).2.2 = (c.disconnect).2 ++ [Effect.registryDelete id] ∧
      ((c.disconnect).1).ws ≠ some WsState.opened ∧
      ((c.disconnect).1).shouldReconnect = false ∧
      regLookup (regErase st id) id = none) := by
  constructor
  · intro h
    unfold apiDisconnect
    rw [h]
  · intro c hc
    unfold apiDisconnect
    rw [hc]
    exact ⟨rfl, rfl, rfl, disconnect_ws_not_open c, disconnect_shouldReconnect c,
      regLookup_erase_self st id⟩

theorem disconnect_endpoint_contract_witness :
    (apiDisconnect [("sid", connReady)] "sid").2.2 =
      (connReady.disconnect).2 ++ [Effect.registryDelete "sid"] ∧
    apiDisconnect [("sid", connReady)] "other" =
      ([("sid", connReady)], ApiResponse.errMsg 404 "Session not found", []) :=
  ⟨((disconnect_endpoint_contract [("sid", connReady)] "sid").2 connReady rfl).2.2.1,
    (disconnect_endpoint_contract [("sid", connReady)] "other").1 (by decide)⟩

/-! ## Claim C4 — socket drops never destroy the session -/

/-- Claim C4: no gateway event (in particular an op 7 reconnect request
or a socket close) disables the reconnect flag, and gateway events
never remove the session's registry entry; the close event schedules a
fresh connect after exactly 5000 ms if and only if reconnect is still
enabled; among all server events only an explicit disconnect request
for the very id removes its registry entry. -/
theorem registry_reconnect_invariants (st : Registry) (id : String) :
    (∀ c e, ((gwStep c e).1).shouldReconnect = c.shouldReconnect) ∧
    (∀ c k, reconnectEffects ((gwStep c (GwEvent.socketClosed k)).2) =
      if c.shouldReconnect then [Effect.scheduleReconnect 5000] else []) ∧
    (∀ ev, ev ≠ ServerEvent.apiDisconnect id → regLookup st id ≠ none →
      regLookup (serverStep st ev) id ≠ none) := by
  refine ⟨gwStep_shouldReconnect, ?_, ?_⟩
  · intro c k
    obtain ⟨tok, sid, ws, hbt, ls, ack, sr, act, ka⟩ := c
    cases hbt <;> cases ka <;> cases sr <;> rfl
  · intro ev hne hmem
    cases ev with
    | gw i e =>
        show regLookup ((serverGw st i e).1) id ≠ none
        unfold serverGw
        rcases hl : regLookup st i with _ | c
        · exact hmem
        · by_cases hii : i = id
          · subst hii
            rw [regLookup_insert_self]
            simp
          · rw [regLookup_insert_ne st i (gwStep c e).1 id (Ne.symm hii)]
            exact hmem
    | apiConnect sid tok evs =>
        show regLookup ((apiConnect st sid tok evs).1) id ≠ none
        unfold apiConnect
        rcases hr : runUntilSettled (connectInit tok sid) evs with _ | ex
        · exact hmem
        · rcases ex with m | c
          · exact hmem
          · by_cases hii : sid = id
            · subst hii
              rw [regLookup_insert_self]
              simp
            · rw [regLookup_insert_ne st sid c id (Ne.symm hii)]
              exact hmem
    | apiUpdateStatus sid a =>
        show regLookup ((apiUpdateStatus st sid a).1) id ≠ none
        unfold apiUpdateStatus
        rcases hl : regLookup st sid with _ | c
        · exact hmem
        · by_cases hii : sid = id
          · subst hii
            rw [regLookup_insert_self]
            simp
          · rw [regLookup_insert_ne st sid (c.updatePresence a).1 id (Ne.symm hii)]
            exact hmem
    | apiDisconnect sid =>
        have hsid : sid ≠ id := fun h => hne (by rw [h])
        show regLookup ((apiDisconnect st sid).1) id ≠ none
        unfold apiDisconnect
        rcases hl : regLookup st sid with _ | c
        · exact hmem
        · rw [regLookup_erase_ne st sid id (Ne.symm hsid)]
          exact hmem
    | apiStatus sid => exact hmem
    | apiSessions => exact hmem

theorem registry_reconnect_invariants_witness :
    ((gwStep connReady
        (GwEvent.msg { op := 7, hbInterval := 0, s := none, t := none })).1).shouldReconnect =
      connReady.shouldReconnect ∧
    reconnectEffects ((gwStep connReady (GwEvent.socketClosed 1006)).2) =
      (if connReady.shouldReconnect then [Effect.scheduleReconnect 5000] else []) ∧
    regLookup (serverStep [("sid", connReady)]
        (ServerEvent.gw "sid" (GwEvent.socketClosed 1006))) "sid" ≠ none :=
  ⟨(registry_reconnect_invariants [("sid", connReady)] "sid").1 connReady
      (GwEvent.msg { op := 7, hbInterval := 0, s := none, t := none }),
    (registry_reconnect_invariants [("sid", connReady)] "sid").2.1 connReady 1006,
    (registry_reconnect_invariants [("sid", connReady)] "sid").2.2
      (ServerEvent.gw "sid" (GwEvent.socketClosed 1006)) (by decide) (by decide)⟩

/-! ## Claim C8 — create-session stores only on Ready -/

lemma runUntilSettled_ok_ready (evs : List GwEvent) :
    ∀ c c', runUntilSettled c evs = some (Except.ok c') →
      ∃ p, GwEvent.msg p ∈ evs ∧ p.op = 0 ∧ p.t = some "READY" := by
  induction evs with
  | nil =>
      intro c c' h
      simp [runUntilSettled] at h
  | cons e rest ih =>
      intro c c' h
      unfold runUntilSettled at h
      rcases he : errorOf e with _ | m
      · rw [he] at h
        dsimp only at h
        by_cases hr : isReadyEvent e
        · rcases e with _ | _ | p | _ | _ | m2 <;> simp [isReadyEvent] at hr
          obtain ⟨hop, ht⟩ := hr
          exact ⟨p, List.mem_cons_self _ _, hop, ht⟩
        · rw [if_neg hr] at h
          obtain ⟨p, hmem, hrest⟩ := ih _ _ h
          exact ⟨p, List.mem_cons_of_mem _ hmem, hrest⟩
      · rw [he] at h
        simp at h

/-- Claim C8: if the socket errors before the handshake completes, the
connect endpoint answers with the connect error (HTTP 500) and the
session is not stored; the registry gains an entry only when the
connect promise resolved, which happens only on a `READY` dispatch. -/
theorem connect_endpoint_contract (st : Registry) (sid tok : String)
    (evs : List GwEvent) :
    (∀ m, runUntilSettled (connectInit tok sid) evs = some (Except.error m) →
      apiConnect st sid tok evs = (st, ApiResponse.errMsg 500 m)) ∧
    (∀ c, runUntilSettled (connectInit tok sid) evs = some (Except.ok c) →
      (apiConnect st sid tok evs).1 = regInsert st sid c ∧
      regLookup ((apiConnect st sid tok evs).1) sid = some c ∧
      ∃ p, GwEvent.msg p ∈ evs ∧ p.op = 0 ∧ p.t = some "READY") ∧
    ((apiConnect st sid tok evs).1 ≠ st →
      ∃ c, runUntilSettled (connectInit tok sid) evs = some (Except.ok c)) := by
  refine ⟨?_, ?_, ?_⟩
  · intro m h
    unfold apiConnect
    rw [h]
  · intro c h
    unfold apiConnect
    rw [h]
    exact ⟨rfl, regLookup_insert_self st sid c, runUntilSettled_ok_ready evs _ _ h⟩
  · intro hne
    rcases hr : runUntilSettled (connectInit tok sid) evs with _ | ex
    · exact absurd (by unfold apiConnect; rw [hr]) hne
    · rcases ex with m | c
      · exact absurd (by unfold apiConnect; rw [hr]) hne
      · exact ⟨c, rfl⟩

/-- A trace completing the handshake: `open`, `hello`, then the `READY`
dispatch. -/
def readyTrace : List GwEvent :=
  [GwEvent.socketOpened,
    GwEvent.msg { op := 10, hbInterval := 30000, s := none, t := none },
    GwEvent.msg { op := 0, hbInterval := 0, s := some 1, t := some "READY" }]

theorem connect_endpoint_contract_witness :
    apiConnect [] "sid" "tok" [GwEvent.socketError "boom"] =
      ([], ApiResponse.errMsg 500 "boom") ∧
    regLookup ((apiConnect [] "sid" "tok" readyTrace).1) "sid" =
      some (runTrace (connectInit "tok" "sid") readyTrace) :=
  ⟨(connect_endpoint_contract [] "sid" "tok" [GwEvent.socketError "boom"]).1 "boom" rfl,
    ((connect_endpoint_contract [] "sid" "tok" readyTrace).2.1
        (runTrace (connectInit "tok" "sid") readyTrace) rfl).2.1⟩
